import Mathlib

/-!
Verification development for the portopsicanalise content-automation pipeline.

The Python sources under src/ are embedded shallowly:
* Python values that flow through the YAML knowledge base are modelled by
  the inductive type PyVal (dicts keep insertion order as association lists).
* Raised exceptions are modelled by the Except monad over PyErr.
* The file system is a set of existing paths (FS); writing a file adds its path.
* random.Random with a fixed seed is a deterministic stream of naturals (RNG);
  random.choice consumes one draw.
* Pillow layout arithmetic is carried out over exact rationals; at every input
  used in a theorem below the corresponding Python float computation is exact,
  so the rational model agrees with the source.
* Library text measurement (PIL textbbox widths and heights) and textwrap.wrap
  are external to the repository and appear as function parameters of the
  environment; theorems hold for every instantiation unless stated otherwise.
-/

set_option autoImplicit false

namespace PortoPsicanalise

/-! ## Python-level values and errors -/

/-- Python exceptions that the embedded code can raise. -/
inductive PyErr where
  | attributeError (tyName attrName : String)
  | nameError (missing : String)
  | typeError (msg : String)
  | keyError (k : String)
  | indexError
  | valueError
deriving Repr, DecidableEq

/-- Untyped Python values as loaded from YAML documents. -/
inductive PyVal where
  | none
  | str (s : String)
  | int (n : Int)
  | list (xs : List PyVal)
  | dict (entries : List (String × PyVal))

/-- Python type name, as it would appear in an AttributeError message. -/
def pyTypeName : PyVal → String
  | .none => "NoneType"
  | .str _ => "str"
  | .int _ => "int"
  | .list _ => "list"
  | .dict _ => "dict"

/-- Python truthiness. -/
def pyTruthy : PyVal → Bool
  | .none => false
  | .str s => !s.isEmpty
  | .int n => n != 0
  | .list xs => !xs.isEmpty
  | .dict es => !es.isEmpty

/-- Python str() rendering. Container rendering is abstracted to a fixed
deterministic form; no theorem below depends on its exact shape. -/
def pyStr : PyVal → String
  | .none => "None"
  | .str s => s
  | .int n => toString n
  | .list _ => "[...]"
  | .dict _ => "{...}"

/-- x.get(key, default): succeeds only on dicts, as in Python; on any other
receiver an AttributeError is raised. -/
def pyAttrGetD (v : PyVal) (key : String) (dflt : PyVal) : Except PyErr PyVal :=
  match v with
  | .dict es => .ok (((es.find? (fun e => e.1 == key)).map Prod.snd).getD dflt)
  | other => .error (.attributeError (pyTypeName other) "get")

/-- x[key] subscript with a string key. -/
def pySubscriptKey (v : PyVal) (key : String) : Except PyErr PyVal :=
  match v with
  | .dict es =>
    match (es.find? (fun e => e.1 == key)).map Prod.snd with
    | some w => .ok w
    | Option.none => .error (.keyError key)
  | .list _ => .error (.typeError "list indices must be integers")
  | .str _ => .error (.typeError "string indices must be integers")
  | other => .error (.typeError (pyTypeName other ++ " is not subscriptable"))

/-- x[i] subscript with a non-negative integer index. -/
def pySubscriptIdx (v : PyVal) (i : Nat) : Except PyErr PyVal :=
  match v with
  | .list xs => if i < xs.length then .ok (xs.getD i .none) else .error .indexError
  | .str s =>
    if i < s.length then .ok (.str (String.singleton (s.toList.getD i ' ')))
    else .error .indexError
  | .dict _ => .error (.keyError (toString i))
  | other => .error (.typeError (pyTypeName other ++ " is not subscriptable"))

/-- Iterating a Python value: dicts yield their keys (this is the essential
fact behind the knowledge-base filtering bug), lists their elements, strings
their characters. -/
def pyIter (v : PyVal) : Except PyErr (List PyVal) :=
  match v with
  | .dict es => .ok (es.map (fun e => .str e.1))
  | .list xs => .ok xs
  | .str s => .ok (s.toList.map (fun c => .str (String.singleton c)))
  | other => .error (.typeError (pyTypeName other ++ " is not iterable"))

/-- PyVal membership in a list of strings (Python `in`): only str values can
compare equal to the strings of the used-content log. -/
def pyValInStrList (v : PyVal) (xs : List String) : Bool :=
  match v with
  | .str s => xs.contains s
  | _ => false

/-- str.capitalize(): first character upper-cased, the rest lower-cased. -/
def pyCapitalize (s : String) : String :=
  match s.toList with
  | [] => ""
  | c :: cs => String.mk (c.toUpper :: cs.map Char.toLower)

/-- Character-list worker for pySplit. -/
def pySplitChar (sep : Char) : List Char → List String
  | [] => [""]
  | c :: cs =>
    let r := pySplitChar sep cs
    if c = sep then "" :: r
    else
      match r with
      | [] => [String.singleton c]
      | h :: t => (String.singleton c ++ h) :: t

/-- str.split with a one-character separator: splits at every occurrence and
keeps empty fields, as Python does (so "".split(c) is [""] and
"a\n".split('\n') is ["a", ""]). -/
def pySplit (s : String) (sep : Char) : List String :=
  pySplitChar sep s.toList

/-! ## File system and randomness -/

/-- The file system as the set of paths of existing files. -/
structure FS where
  files : List String
deriving Repr, DecidableEq

def FS.pathExists (fs : FS) (p : String) : Bool :=
  fs.files.contains p

def FS.write (fs : FS) (p : String) : FS :=
  ⟨p :: fs.files⟩

/-- A seeded random generator: the stream of draws produced by the seed,
together with the position of the next draw. Two runs with the same seed
share the same stream. -/
structure RNG where
  stream : Nat → Nat
  pos : Nat

/-- One draw below n (the model of random._randbelow). -/
def randBelow (r : RNG) (n : Nat) : Nat × RNG :=
  (r.stream r.pos % n, { r with pos := r.pos + 1 })

/-- random.choice on a Python value: consumes one draw; empty sequences raise
IndexError; dicts do not support integer subscripts. -/
def pyChoice (v : PyVal) (r : RNG) : Except PyErr (PyVal × RNG) :=
  match v with
  | .list [] => .error .indexError
  | .list xs =>
    let (i, r') := randBelow r xs.length
    .ok (xs.getD i .none, r')
  | .str s =>
    if s.isEmpty then .error .indexError
    else
      let (i, r') := randBelow r s.length
      .ok (.str (String.singleton (s.toList.getD i ' ')), r')
  | .dict [] => .error .indexError
  | .dict _ => .error (.keyError "0")
  | other => .error (.typeError (pyTypeName other ++ " has no len"))

/-! ## Data model (src/models/content.py) -/

/-- ContentCategory enum (src/models/content.py lines 6-11). -/
inductive ContentCategory where
  | freudian_concepts
  | jung_theory
  | lacan_concepts
  | practical_tips
  | reflection
deriving Repr, DecidableEq

/-- ContentCategory(value): the enum lookup by YAML value string. -/
def contentCategoryOfValue (s : String) : Option ContentCategory :=
  if s = "conceitos_freudianos" then some .freudian_concepts
  else if s = "teoria_junguiana" then some .jung_theory
  else if s = "conceitos_lacanianos" then some .lacan_concepts
  else if s = "dicas_praticas" then some .practical_tips
  else if s = "reflexoes" then some .reflection
  else none

/-- ContentType enum (src/models/content.py lines 13-17). -/
inductive ContentType where
  | quote
  | concept
  | question
  | tip
deriving Repr, DecidableEq

/-- The Content dataclass (src/models/content.py lines 19-31).
Python dataclasses do not enforce field types; the fields fed directly from
YAML values are therefore PyVal, while the fields the code always builds
from string formatting are String. Timestamps are naturals. -/
structure Content where
  id : String
  title : PyVal
  text : PyVal
  caption : String
  category : ContentCategory
  content_type : ContentType
  hashtags : List String
  image_path : Option String := Option.none
  created_at : Nat := 0
  posted : Bool := false
  post_id : Option String := Option.none

/-! ## SupervisorAgent (src/agents/supervisor.py) -/

/-- Engagement metrics dict built at supervisor.py line 128. -/
structure Metrics where
  likes : Nat
  comments : Nat
  timestamp : Nat
deriving Repr, DecidableEq

/-- The Instagram client is opaque to the supervisor; it only matters whether
one was initialized. For the poster the upload call is modelled by a function
from image path and caption to the media id, with Option.none standing for a
raised exception. -/
structure InstaClient where
  upload : String → String → Option String

/-- SupervisorAgent state after __init__ (supervisor.py lines 9-35):
instagram_client is set to None at line 23 and _initialize_dependencies
(lines 37-64) never assigns it. -/
structure SupervisorState where
  notification_email : Option String
  metrics_store_path : Option String
  instagram_client : Option InstaClient

/-- SupervisorAgent.__init__: the client placeholder stays None. -/
def supervisorInit (notification_email : Option String)
    (metrics_store_path : Option String) : SupervisorState :=
  { notification_email := notification_email
    metrics_store_path := metrics_store_path
    instagram_client := Option.none }

/-- verify_post (supervisor.py lines 66-99): both the no-client branch
(line 77) and the fall-through (line 99) return True. -/
def verify_post (st : SupervisorState) (post_id : String)
    (expected_caption : Option String) : Bool :=
  match st.instagram_client with
  | Option.none => true
  | some _ => true

/-- collect_engagement_metrics (supervisor.py lines 101-129): returns None
when no Instagram client is initialized (line 109), and the simulated
placeholder metrics dict otherwise (lines 128-129). -/
def collect_engagement_metrics (st : SupervisorState) (post_id : String)
    (now : Nat) : Option Metrics :=
  match st.instagram_client with
  | Option.none => Option.none
  | some _ => some { likes := 0, comments := 0, timestamp := now }

/-- health_check (supervisor.py lines 151-155). -/
def health_check (st : SupervisorState) : Bool :=
  true

/-! ### Import-time evaluation of the supervisor module

Executing `class SupervisorAgent` runs each def statement of the class body
in order; a def statement evaluates the type hints of its parameters and of
its return type at that moment. supervisor.py imports only Optional and Any
from typing (line 3), so the first reference to Dict raises a NameError and
the module import fails. -/

/-- Names bound at module level in supervisor.py before the class body runs:
the imports of lines 1-6. -/
def supervisorImportedNames : List String :=
  ["logging", "time", "Optional", "Any", "Content"]

/-- Builtin names available without import. -/
def pythonBuiltins : List String :=
  ["str", "int", "bool", "float", "None", "True", "False"]

/-- The names referenced by the type hints of each method of SupervisorAgent,
per method, in evaluation order (parameters first, then the return type). -/
def supervisorClassBody : List (String × List String) :=
  [ ("__init__",
      ["Optional", "str", "Optional", "str", "Optional", "str",
       "Optional", "str", "Optional", "str"]),
    ("_initialize_dependencies", []),
    ("verify_post", ["str", "Optional", "str", "bool"]),
    ("collect_engagement_metrics", ["str", "Optional", "Dict", "str", "Any"]),
    ("_store_metrics", ["str", "Dict", "str", "Any"]),
    ("_send_alert", ["str", "str"]),
    ("health_check", ["bool"]) ]

/-- Resolving one name during class-body execution. -/
def resolveName (n : String) : Except PyErr Unit :=
  if pythonBuiltins.contains n || supervisorImportedNames.contains n then .ok ()
  else .error (.nameError n)

/-- Importing src/agents/supervisor.py: executes the class body, resolving
every name referenced by the method type hints in order. -/
def importSupervisorModule : Except PyErr Unit :=
  supervisorClassBody.forM (fun step => step.2.forM resolveName)

/-! ## PosterAgent (src/agents/poster.py) -/

/-- PosterAgent state relevant to post_content: whether instagrapi imported
(poster.py lines 6-10) and the client left by _initialize_client
(Option.none when the library is missing, login failed, or no credentials
were given). -/
structure PosterState where
  instagrapi_available : Bool
  instagram_client : Option InstaClient

/-- post_content (poster.py lines 97-126).
now is int(time.time()) at the moment of the call. -/
def post_content (st : PosterState) (content : Content) (fs : FS)
    (now : Nat) : Option String :=
  -- lines 104-109: no library or no client: simulated identifier
  if !st.instagrapi_available || st.instagram_client.isNone then
    some ("simulated" ++ "_failure_" ++ toString now)
  else
    -- line 111: falsy image_path or missing file: real failure, None
    match content.image_path with
    | Option.none => Option.none
    | some p =>
      if p.isEmpty then Option.none
      else if !fs.pathExists p then Option.none
      else
        -- lines 116-126: photo_upload; an exception yields None
        match st.instagram_client with
        | Option.none => Option.none
        | some client =>
          match client.upload p content.caption with
          | some mediaId => some mediaId
          | Option.none => Option.none

/-! ## CreatorAgent: image layout (creator.py, _generate_image_with_pillow)

Font sizes and layout constants of creator.py lines 446-459, over exact
rationals. At each concrete input appearing in a theorem below the Python
float computation rounds to the same values. -/

def image_w : ℚ := 1080
def image_h : ℚ := 1080
def padding : ℚ := 80
def max_text_width_pixels : ℚ := image_w - 2 * padding

def font_title_size : ℚ := 70
def font_body_size : ℚ := 50
def font_author_size : ℚ := 35

def line_height_title : ℚ := font_title_size * (12 / 10)
def spacing_after_title : ℚ := font_title_size * (5 / 10)
def line_height_body : ℚ := font_body_size * (13 / 10)
def spacing_before_author : ℚ := font_body_size * (3 / 10)
def line_height_author : ℚ := font_author_size * (12 / 10)

/-- Python int() on a non-negative rational: truncation. -/
def pyIntOfRat (q : ℚ) : Nat :=
  q.floor.toNat

/-- Wrap-width character counts of creator.py lines 461, 467, 474. -/
def wrapWidthTitle : Nat := pyIntOfRat (max_text_width_pixels / (font_title_size * (55 / 100)))
def wrapWidthBody : Nat := pyIntOfRat (max_text_width_pixels / (font_body_size * (5 / 10)))
def wrapWidthAuthor : Nat := pyIntOfRat (max_text_width_pixels / (font_author_size * (5 / 10)))

/-- The body-height accumulation of creator.py lines 465-471: each raw line is
wrapped; a nonempty wrap contributes (n-1) line heights plus one font size,
and every raw line before the last additionally contributes the leading
difference. Returns the concatenated wrapped lines and the added height. -/
def bodyWalk (wrapFn : String → Nat → List String) :
    List String → List String × ℚ
  | [] => ([], 0)
  | [l] =>
    let w := wrapFn l wrapWidthBody
    (w, if w.isEmpty then 0
        else ((w.length : ℚ) - 1) * line_height_body + font_body_size)
  | l :: l2 :: rest =>
    let w := wrapFn l wrapWidthBody
    let (ls, h) := bodyWalk wrapFn (l2 :: rest)
    (w ++ ls,
      (if w.isEmpty then 0
       else ((w.length : ℚ) - 1) * line_height_body + font_body_size
            + (line_height_body - font_body_size)) + h)

/-- The wrapped lines of the three blocks together with total_content_height
(creator.py lines 455-478). The Option arguments are the truthy text of
title_text, main_text and author_text; author text arrives already prefixed
(line 474). -/
structure LayoutCalc where
  title_lines : List String
  body_lines : List String
  author_lines : List String
  total : ℚ

def layoutHeights (wrapFn : String → Nat → List String)
    (titleArg : Option String) (mainArg : Option String)
    (authorArg : Option String) : LayoutCalc :=
  let t_lines := match titleArg with
    | some s => wrapFn s wrapWidthTitle
    | Option.none => []
  let totalT : ℚ := match titleArg with
    | some _ => (t_lines.length : ℚ) * line_height_title + spacing_after_title
    | Option.none => 0
  let bw := match mainArg with
    | some s => bodyWalk wrapFn (pySplit s '\n')
    | Option.none => ([], 0)
  let a_lines := match authorArg with
    | some s => wrapFn ("— " ++ s) wrapWidthAuthor
    | Option.none => []
  let totalA : ℚ := match authorArg with
    | some _ =>
      (if mainArg.isSome || titleArg.isSome then spacing_before_author else 0)
        + (a_lines.length : ℚ) * line_height_author
    | Option.none => 0
  let total0 := totalT + bw.2 + totalA
  -- the last-block corrections of lines 476-478
  let total :=
    if !t_lines.isEmpty && bw.1.isEmpty && a_lines.isEmpty then
      total0 - (line_height_title - font_title_size)
    else if !bw.1.isEmpty && a_lines.isEmpty then
      total0 - (line_height_body - font_body_size)
    else if !a_lines.isEmpty then
      total0 - (line_height_author - font_author_size)
    else total0
  { title_lines := t_lines, body_lines := bw.1, author_lines := a_lines,
    total := total }

/-- One drawn text line: the code draws the shadow first at the fixed offset,
then the line itself (creator.py lines 487-489, 499-501, 511-513). -/
structure TextDraw where
  line : String
  size : ℚ
  shadow_x : ℚ
  shadow_y : ℚ
  main_x : ℚ
  main_y : ℚ
deriving Repr, DecidableEq

/-- The fixed shadow offset of creator.py line 438. -/
def shadow_offset : ℚ × ℚ := (2, 2)

/-- Title loop (lines 483-490): horizontally centered, each line advances by
the full title line height. -/
def drawTitleLines (widthFn : String → ℚ → ℚ) :
    List String → ℚ → List TextDraw × ℚ
  | [], y => ([], y)
  | l :: rest, y =>
    let x := (image_w - widthFn l font_title_size) / 2
    let td : TextDraw :=
      { line := l, size := font_title_size,
        shadow_x := x + shadow_offset.1, shadow_y := y + shadow_offset.2,
        main_x := x, main_y := y }
    (td :: (drawTitleLines widthFn rest (y + line_height_title)).1,
     (drawTitleLines widthFn rest (y + line_height_title)).2)

/-- Body loop (lines 495-502): centered; the last line advances by the font
size instead of the line height. -/
def drawBodyLines (widthFn : String → ℚ → ℚ) :
    List String → ℚ → List TextDraw × ℚ
  | [], y => ([], y)
  | [l], y =>
    let x := (image_w - widthFn l font_body_size) / 2
    ([{ line := l, size := font_body_size,
        shadow_x := x + shadow_offset.1, shadow_y := y + shadow_offset.2,
        main_x := x, main_y := y }], y + font_body_size)
  | l :: l2 :: rest, y =>
    let x := (image_w - widthFn l font_body_size) / 2
    let td : TextDraw :=
      { line := l, size := font_body_size,
        shadow_x := x + shadow_offset.1, shadow_y := y + shadow_offset.2,
        main_x := x, main_y := y }
    (td :: (drawBodyLines widthFn (l2 :: rest) (y + line_height_body)).1,
     (drawBodyLines widthFn (l2 :: rest) (y + line_height_body)).2)

/-- Author loop (lines 507-514): right-aligned; the last line advances by the
font size. -/
def drawAuthorLines (widthFn : String → ℚ → ℚ) :
    List String → ℚ → List TextDraw × ℚ
  | [], y => ([], y)
  | [l], y =>
    let x := image_w - widthFn l font_author_size - padding
    ([{ line := l, size := font_author_size,
        shadow_x := x + shadow_offset.1, shadow_y := y + shadow_offset.2,
        main_x := x, main_y := y }], y + font_author_size)
  | l :: l2 :: rest, y =>
    let x := image_w - widthFn l font_author_size - padding
    let td : TextDraw :=
      { line := l, size := font_author_size,
        shadow_x := x + shadow_offset.1, shadow_y := y + shadow_offset.2,
        main_x := x, main_y := y }
    (td :: (drawAuthorLines widthFn (l2 :: rest) (y + line_height_author)).1,
     (drawAuthorLines widthFn (l2 :: rest) (y + line_height_author)).2)

/-- The full sequence of shadowed content text draws (creator.py lines
479-514): current_y starts at the vertical-centering value and the three
blocks are drawn in order. -/
def contentTextDraws (widthFn : String → ℚ → ℚ) (lc : LayoutCalc)
    (titleArg : Option String) (mainArg : Option String)
    (authorArg : Option String) : List TextDraw :=
  let y0 := (image_h - lc.total) / 2
  let tStep : List TextDraw × ℚ :=
    if titleArg.isSome then
      let r := drawTitleLines widthFn lc.title_lines y0
      (r.1, r.2 + spacing_after_title)
    else ([], y0)
  let bStep : List TextDraw × ℚ :=
    if mainArg.isSome then drawBodyLines widthFn lc.body_lines tStep.2
    else ([], tStep.2)
  let aStep : List TextDraw × ℚ :=
    if authorArg.isSome then
      let yb := if mainArg.isSome || titleArg.isSome then
          bStep.2 + spacing_before_author
        else bStep.2
      drawAuthorLines widthFn lc.author_lines yb
    else ([], bStep.2)
  tStep.1 ++ bStep.1 ++ aStep.1

/-! ## CreatorAgent: environment, image generation and create_content -/

/-- RGB colour. -/
structure RGB where
  r : Nat
  g : Nat
  b : Nat
deriving Repr, DecidableEq

/-- Colour palettes of creator.py lines 59-67. -/
def colorPalette (c : ContentCategory) : RGB × RGB :=
  match c with
  | .freudian_concepts => (⟨220, 230, 240⟩, ⟨70, 85, 95⟩)
  | .jung_theory => (⟨225, 235, 220⟩, ⟨80, 95, 85⟩)
  | .lacan_concepts => (⟨230, 225, 235⟩, ⟨85, 75, 90⟩)
  | .practical_tips => (⟨245, 240, 230⟩, ⟨90, 80, 70⟩)
  | .reflection => (⟨220, 225, 230⟩, ⟨75, 80, 90⟩)

/-- The image_elements dict built at creator.py lines 264-268. -/
structure ImgElements where
  main_text : PyVal
  author_text : PyVal
  title_text : PyVal

/-- The fixed, per-process environment of a CreatorAgent run: the loaded
knowledge base, availability flags of the optional libraries and asset
files, the glob of background images, and the external text-measurement and
text-wrapping functions (PIL and textwrap, outside this repository). -/
structure CreatorEnv where
  knowledge_base : PyVal
  pil_available : Bool
  /-- abstracts an exception raised by any Pillow image or font operation
  inside the try of creator.py lines 362-534; the except of lines 535-537
  turns it into a None return. -/
  render_fault : Bool
  backgrounds : List String
  watermark_exists : Bool
  small_logo_drawn : Bool
  output_dir : String
  wrapFn : String → Nat → List String
  widthFn : String → ℚ → ℚ
  heightFn : String → ℚ → ℚ

/-- The rendered image as the sequence of compositing decisions that
determine its pixels; equal specs produce equal image bytes. -/
structure ImageSpec where
  background : Option String
  bg_color : RGB
  text_color : RGB
  watermark : Bool
  handle_x : ℚ
  handle_y : ℚ
  texts : List TextDraw
  small_logo : Bool
deriving Repr, DecidableEq

/-- A truthy text element: None for a falsy value; a truthy non-str value
makes textwrap raise inside the try (caught at lines 535-537). -/
def pyTextOpt (v : PyVal) : Except PyErr (Option String) :=
  if pyTruthy v then
    match v with
    | .str s => .ok (some s)
    | other => .error (.attributeError (pyTypeName other) "split")
  else .ok Option.none

/-- The @portopsicanalise handle drawn at creator.py lines 416-435. -/
def handleText : String := "@portopsicanalise"

/-- Everything in the try of creator.py lines 362-534 that determines the
image pixels, given the background choice already made. -/
def buildSpec (env : CreatorEnv) (category : ContentCategory)
    (bgChoice : Option String) (el : ImgElements) : Except PyErr ImageSpec := do
  if env.render_fault then
    .error (.typeError "Pillow operation failed")
  else
    let palette := colorPalette category
    -- handle position, lines 417-432
    let hw := env.widthFn handleText 30
    let hh := env.heightFn handleText 30
    let handle_x := image_w - hw - 30
    let handle_y := image_h - hh - 120
    -- wrapped/shadowed content blocks, lines 437-514
    let titleArg ← pyTextOpt el.title_text
    let mainArg ← pyTextOpt el.main_text
    let authorArg : Option String :=
      if pyTruthy el.author_text then some (pyStr el.author_text) else Option.none
    let lc := layoutHeights env.wrapFn titleArg mainArg authorArg
    let tds := contentTextDraws env.widthFn lc titleArg mainArg authorArg
    pure { background := bgChoice, bg_color := palette.1, text_color := palette.2,
           watermark := env.watermark_exists,
           handle_x := handle_x, handle_y := handle_y,
           texts := tds, small_logo := env.small_logo_drawn }

/-- Random background selection, creator.py lines 354-360: one draw is
consumed exactly when the backgrounds glob is nonempty. -/
def pickBg (env : CreatorEnv) (rng : RNG) : Option String × RNG :=
  match env.backgrounds with
  | [] => (Option.none, rng)
  | bs =>
    let d := randBelow rng bs.length
    (some (bs.getD d.1 ""), d.2)

/-- The output path of creator.py line 531. -/
def outPath (env : CreatorEnv) (content_id : String) : String :=
  env.output_dir ++ "/" ++ content_id ++ ".png"

/-- Result of _generate_image_with_pillow: the returned path (None on
failure), the image spec actually rendered, and the advanced RNG and file
system. -/
structure GenOut where
  path : Option String
  spec : Option ImageSpec
  rng : RNG
  fs : FS

/-- _generate_image_with_pillow (creator.py lines 344-537): returns the saved
path only after img.save succeeded at that path; every exception inside the
try is caught and turned into a None return with nothing saved. -/
def generate_image_with_pillow (env : CreatorEnv) (rng : RNG) (fs : FS)
    (content_id : String) (el : ImgElements) (category : ContentCategory) :
    GenOut :=
  if !env.pil_available then
    { path := Option.none, spec := Option.none, rng := rng, fs := fs }
  else
    match buildSpec env category (pickBg env rng).1 el with
    | .error _ =>
      { path := Option.none, spec := Option.none, rng := (pickBg env rng).2, fs := fs }
    | .ok spec =>
      { path := some (outPath env content_id), spec := some spec,
        rng := (pickBg env rng).2, fs := fs.write (outPath env content_id) }

/-! ### create_content (creator.py lines 196-307) and its helpers -/

/-- _determine_content_type (creator.py lines 309-313): never returns None,
the default is CONCEPT. -/
def determine_content_type (kb_item : PyVal) : Except PyErr ContentType := do
  let c ← pyAttrGetD kb_item "citacoes" .none
  if pyTruthy c then pure .quote
  else do
    let p ← pyAttrGetD kb_item "perguntas" .none
    if pyTruthy p then pure .question
    else do
      let d ← pyAttrGetD kb_item "dicas" .none
      if pyTruthy d then pure .tip
      else pure .concept

/-- Category hashtag map, creator.py lines 318-324. -/
def categoryTags (c : ContentCategory) : List String :=
  match c with
  | .freudian_concepts => ["Freud", "TeoriaFreudiana"]
  | .jung_theory => ["Jung", "PsicologiaAnalitica"]
  | .lacan_concepts => ["Lacan", "TeoriaLacaniana"]
  | .practical_tips => ["DicasPsicologicas", "Autoconhecimento"]
  | .reflection => ["ReflexaoDiaria", "PensamentoCritico"]

/-- Content-type hashtag map, creator.py lines 325-330. -/
def typeTags (t : ContentType) : List String :=
  match t with
  | .quote => ["Citacoes", "FrasesInspiradoras"]
  | .concept => ["ConceitosPsicanaliticos", "AprenderPsicanalise"]
  | .question => ["PsicanaliseResponde", "QuestioneSe"]
  | .tip => ["DicaDePsicologia", "BemEstarEmocional"]

/-- list(set(xs)) at creator.py line 342: deduplication. Iteration order of a
Python set is abstracted as first-occurrence order; no theorem below depends
on the order. -/
def pySetDedup (xs : List String) : List String :=
  xs.foldl (fun acc x => if acc.contains x then acc else acc ++ [x]) []

/-- _generate_hashtags (creator.py lines 315-342). Keywords come straight
from the YAML item, so iterating them and calling str methods can raise. -/
def generate_hashtags (category : ContentCategory) (ctype : ContentType)
    (keywords : PyVal) : Except PyErr (List String) := do
  let base := ["PortoPsicanalise", "Psicanalise", "SaudeMental"]
  let g1 := base ++ categoryTags category ++ typeTags ctype
  let kwList ← pyIter keywords
  let g2 ← kwList.foldlM (fun acc kw =>
      match kw with
      | .str s =>
        let h := pyCapitalize ((s.replace " " "").replace "-" "")
        pure (if acc.contains h then acc else acc ++ [h])
      | other => .error (.attributeError (pyTypeName other) "replace")) g1
  pure (pySetDedup g2)

/-- The strings and enums built from the selected item: creator.py lines
220-250. -/
structure TextParts where
  category : ContentCategory
  ctype : ContentType
  titleV : PyVal
  mainV : PyVal
  authorV : PyVal
  caption_text : String
  hashtags : List String

/-- The try/except ValueError of creator.py lines 222-226: only ValueError is
caught; AttributeError, IndexError and TypeError propagate. -/
def catchValueError {α : Type} (x : Except PyErr α) (fallback : α) :
    Except PyErr α :=
  match x with
  | .ok a => .ok a
  | .error .valueError => .ok fallback
  | .error e => .error e

/-- Lines 220-250 of create_content: category and type derivation, image
texts, caption text and hashtags. One RNG draw is consumed exactly when the
quote branch picks a citation. -/
def buildTextParts (selected : PyVal) (categoryArg : Option ContentCategory)
    (rng : RNG) : Except PyErr (TextParts × RNG) := do
  -- lines 222-226
  let actual_category ← catchValueError
    (do
      let cats ← pyAttrGetD selected "categorias" (.list [.str "reflexoes"])
      let c0 ← pySubscriptIdx cats 0
      match c0 with
      | .str s =>
        match contentCategoryOfValue s with
        | some c => Except.ok c
        | Option.none => Except.error PyErr.valueError
      | _ => Except.error PyErr.valueError)
    (categoryArg.getD .reflection)
  -- line 228: `or content_type_filter or ContentType.CONCEPT` is dead code,
  -- because _determine_content_type always returns a truthy enum member
  let actual_content_type ← determine_content_type selected
  -- lines 230-232
  let titleV ← pyAttrGetD selected "nome" (.str "Título Indefinido")
  let mainDefault ← pyAttrGetD selected "descricao_curta" titleV
  let cit ← pyAttrGetD selected "citacoes" .none
  -- lines 234-237
  let quoteStep ←
    if actual_content_type = .quote && pyTruthy cit then do
      let cits ← pySubscriptKey selected "citacoes"
      let pick ← pyChoice cits rng
      let texto ← pyAttrGetD pick.1 "texto" titleV
      let autor ← pyAttrGetD pick.1 "autor" .none
      pure ((PyVal.str ("\"" ++ pyStr texto ++ "\""), autor), pick.2)
    else pure ((mainDefault, PyVal.none), rng)
  let image_main_text := quoteStep.1.1
  let image_author_text := quoteStep.1.2
  let rng2 := quoteStep.2
  -- lines 240-246
  let desc ← pyAttrGetD selected "descricao" image_main_text
  let caption1 := "✨ " ++ pyStr titleV ++ " ✨" ++ "\n\n" ++ pyStr desc
  let caption2 ←
    if pyTruthy image_author_text then do
      let withAuthor := caption1 ++ "\n\n— " ++ pyStr image_author_text
      if actual_content_type = .quote && pyTruthy cit then do
        let cits ← pySubscriptKey selected "citacoes"
        let first ← pySubscriptIdx cits 0
        let obra ← pyAttrGetD first "obra" .none
        pure (if pyTruthy obra then withAuthor ++ ", " ++ pyStr obra else withAuthor)
      else pure withAuthor
    else pure caption1
  -- line 250
  let kws ← pyAttrGetD selected "palavras_chave" (.list [])
  let hashtags ← generate_hashtags actual_category actual_content_type kws
  pure ({ category := actual_category, ctype := actual_content_type,
          titleV := titleV, mainV := image_main_text,
          authorV := image_author_text, caption_text := caption2,
          hashtags := hashtags }, rng2)

/-- f-string zero-padded counter of creator.py line 256. -/
def pad3 (n : Nat) : String :=
  if n < 10 then "00" ++ toString n
  else if n < 100 then "0" ++ toString n
  else toString n

/-- The image_elements dict of creator.py lines 264-268. -/
def elementsOf (tp : TextParts) : ImgElements :=
  { main_text := tp.mainV, author_text := tp.authorV,
    title_text := if tp.ctype ≠ .quote then tp.titleV else .none }

/-- The Content construction of creator.py lines 274-284. -/
def mkContent (content_id : String) (tp : TextParts)
    (image_path : Option String) (now : Nat) : Content :=
  { id := content_id, title := tp.titleV, text := tp.mainV,
    caption := tp.caption_text ++ "\n\n"
      ++ String.intercalate " " (tp.hashtags.map (fun h => "#" ++ h)),
    category := tp.category, content_type := tp.ctype,
    hashtags := tp.hashtags, image_path := image_path,
    created_at := now, posted := false, post_id := Option.none }

/-- Lines 286-307 of create_content. When image_path was set it holds a plain
Python str (line 282 stored str(image_path)), and line 292 accesses the
.stem attribute on it, which only Path objects have: AttributeError. The
caption-existence check and the success return of lines 293-304 are
unreachable. -/
def finishContent (new_content : Content) : Except PyErr (Option Content) :=
  match new_content.image_path with
  | some p =>
    if p.isEmpty then
      -- falsy image_path string: lines 305-307, failure logged, None returned
      .ok Option.none
    else
      -- line 292: new_content.image_path.stem on a str raises
      .error (.attributeError "str" "stem")
  | Option.none => .ok Option.none

/-- _save_used_content_name (creator.py lines 169-180): appends the name to
the log unless already present. Unreachable from create_content (the call at
line 297 sits behind the AttributeError of line 292). -/
def save_used_content_name (used : List String) (content_name : String) :
    List String :=
  if used.contains content_name then used else used ++ [content_name]

/-- Everything observable about one create_content call: the instrumentation
fields selectedItem, imageSpec, imagePathWritten and built record events of
the run even when a later statement raises; outcome is the Python-level
result (the returned value or the escaping exception). -/
structure CreatorOutcome where
  selectedItem : Option PyVal
  imageSpec : Option ImageSpec
  imagePathWritten : Option String
  built : Option Content
  usedFinal : List String
  counterFinal : Nat
  fsFinal : FS
  outcome : Except PyErr (Option Content)

/-- An early return of None (creator.py lines 205, 214) or an escaping
exception before any selection. -/
def earlyOutcome (used : List String) (counter : Nat) (fs : FS)
    (res : Except PyErr (Option Content)) : CreatorOutcome :=
  { selectedItem := Option.none, imageSpec := Option.none,
    imagePathWritten := Option.none, built := Option.none,
    usedFinal := used, counterFinal := counter, fsFinal := fs, outcome := res }

/-- Lines 220-307 of create_content, after an item has been selected. -/
def afterSelection (env : CreatorEnv) (used : List String) (counter : Nat)
    (rng : RNG) (timestamp : String) (now : Nat) (fs : FS)
    (categoryArg : Option ContentCategory) (selected : PyVal) :
    CreatorOutcome :=
  match buildTextParts selected categoryArg rng with
  | .error e =>
    { selectedItem := some selected, imageSpec := Option.none,
      imagePathWritten := Option.none, built := Option.none,
      usedFinal := used, counterFinal := counter, fsFinal := fs,
      outcome := .error e }
  | .ok tpr =>
    -- lines 252-260: counter increment, sequential id, counter saved
    let counter2 := counter + 1
    let content_id := timestamp ++ "_" ++ pad3 counter2
    if env.pil_available then
      -- lines 263-269
      let g := generate_image_with_pillow env tpr.2 fs content_id
        (elementsOf tpr.1) tpr.1.category
      let nc := mkContent content_id tpr.1 g.path now
      { selectedItem := some selected, imageSpec := g.spec,
        imagePathWritten := g.path, built := some nc,
        usedFinal := used, counterFinal := counter2, fsFinal := g.fs,
        outcome := finishContent nc }
    else
      -- lines 270-271: image generation skipped, image_path stays None
      let nc := mkContent content_id tpr.1 Option.none now
      { selectedItem := some selected, imageSpec := Option.none,
        imagePathWritten := Option.none, built := some nc,
        usedFinal := used, counterFinal := counter2, fsFinal := fs,
        outcome := finishContent nc }

/-- _get_available_knowledge_base (creator.py lines 539-546): the list
comprehension iterates self.knowledge_base itself. For the knowledge-base
dict this yields the keys, which are strings, and item.get then raises
AttributeError, contradicting the docstring of line 540. -/
def get_available_knowledge_base (kb : PyVal) (used : List String) :
    Except PyErr (List PyVal) := do
  let items ← pyIter kb
  items.foldlM (fun acc item => do
      let nome ← pyAttrGetD item "nome" .none
      pure (if pyValInStrList nome used then acc else acc ++ [item])) []

/-- Lines 210-217 of create_content: the guard on an empty available list
and the random selection. -/
def createFromAvailable (env : CreatorEnv) (used : List String) (counter : Nat)
    (rng : RNG) (timestamp : String) (now : Nat) (fs : FS)
    (categoryArg : Option ContentCategory) (available : List PyVal) :
    CreatorOutcome :=
  if available.isEmpty then
    earlyOutcome used counter fs (.ok Option.none)
  else
    -- line 217: random.choice(available_kb)
    let d := randBelow rng available.length
    afterSelection env used counter d.2 timestamp now fs categoryArg
      (available.getD d.1 .none)

/-- Lines 203-214 of create_content after self.knowledge_base.get has
produced the conceitos value. -/
def createWithConceitos (env : CreatorEnv) (used : List String) (counter : Nat)
    (rng : RNG) (timestamp : String) (now : Nat) (fs : FS)
    (categoryArg : Option ContentCategory) (conceitos : PyVal) :
    CreatorOutcome :=
  if !pyTruthy conceitos then
    earlyOutcome used counter fs (.ok Option.none)
  else
    -- lines 207-214
    match get_available_knowledge_base env.knowledge_base used with
    | .error e => earlyOutcome used counter fs (.error e)
    | .ok available =>
      createFromAvailable env used counter rng timestamp now fs categoryArg
        available

/-- create_content (creator.py lines 196-307). timestamp is
datetime.now().strftime applied at line 254 and now the matching epoch
second; both change between runs while everything else is per-process
state. -/
def create_content (env : CreatorEnv) (used : List String) (counter : Nat)
    (rng : RNG) (timestamp : String) (now : Nat) (fs : FS)
    (categoryArg : Option ContentCategory) (ctFilter : Option ContentType) :
    CreatorOutcome :=
  -- lines 203-205: `not self.knowledge_base or not self.knowledge_base.get("conceitos")`
  if !pyTruthy env.knowledge_base then
    earlyOutcome used counter fs (.ok Option.none)
  else
    match pyAttrGetD env.knowledge_base "conceitos" .none with
    | .error e => earlyOutcome used counter fs (.error e)
    | .ok conceitos =>
      createWithConceitos env used counter rng timestamp now fs categoryArg
        conceitos

/-! ## main.py: execution modes and the mutation of the Content record -/

/-- The --mode choices of main.py line 56. -/
inductive RunMode where
  | create
  | post
  | supervise
  | full_cycle
  | test_creator
deriving Repr, DecidableEq

/-- Modes that run the creator (main.py line 120). -/
def runsCreator (m : RunMode) : Bool :=
  match m with
  | .create | .full_cycle | .test_creator => true
  | _ => false

/-- Modes that run the poster (main.py line 132). -/
def runsPoster (m : RunMode) : Bool :=
  match m with
  | .post | .full_cycle => true
  | _ => false

/-- The posting step of main.py lines 132-146 applied to the record produced
by the creator: the only field update of a Content record in the whole
program is at lines 138-139. The second component counts how many times the
record was mutated. -/
def mainPostStep (content_to_post : Option Content) (poster : PosterState)
    (fs : FS) (now : Nat) : Option Content × Nat :=
  match content_to_post with
  | Option.none => (Option.none, 0)
  | some c =>
    -- line 134: only posts when image_path is truthy
    if c.image_path.elim false (fun p => !p.isEmpty) then
      match post_content poster c fs now with
      | some pid =>
        -- lines 138-139: the single mutation, setting posted and post_id
        (some { c with posted := true, post_id := some pid }, 1)
      | Option.none => (some c, 0)
    else (some c, 0)

/-- The supervision step of main.py lines 148-167 only reads post_id and
calls verify_post, collect_engagement_metrics and health_check; the record
is returned unchanged. -/
def mainSuperviseStep (content_to_post : Option Content)
    (sup : SupervisorState) (now : Nat) : Option Content :=
  match content_to_post with
  | Option.none => Option.none
  | some c =>
    match c.post_id with
    | some pid =>
      let _ := verify_post sup pid Option.none
      let _ := collect_engagement_metrics sup pid now
      let _ := health_check sup
      some c
    | Option.none => some c

/-- The mode-dependent flow of main.py lines 117-167, starting from the value
the creator step produced (createdResult is what creator.create_content
returned in a create mode; in other modes content_to_post stays None). The
count is the number of mutations applied to the record. -/
def mainFlow (mode : RunMode) (createdResult : Option Content)
    (poster : PosterState) (sup : SupervisorState) (fs : FS) (now : Nat) :
    Option Content × Nat :=
  let content1 := if runsCreator mode then createdResult else Option.none
  let stepP :=
    if runsPoster mode then mainPostStep content1 poster fs now
    else (content1, 0)
  let content3 :=
    if mode = .supervise || mode = .full_cycle then
      mainSuperviseStep stepP.1 sup now
    else stepP.1
  (content3, stepP.2)

/-! ## Concrete fixtures used by the theorems below -/

/-- A concrete Content record for poster witnesses. -/
def posterExampleContent : Content :=
  { id := "dummy_poster_test_1", title := .str "Teste de Postagem",
    text := .str "Este é um texto de teste para a imagem.",
    caption := "Esta é uma legenda de teste.",
    category := .reflection, content_type := .concept,
    hashtags := ["TestePoster", "API"],
    image_path := some "output/images/dummy.png", created_at := 1 }

/-- A creator environment around a given knowledge base, with Pillow present,
no backgrounds, and simple instantiations of the external text functions. -/
def mkEnv (kb : PyVal) : CreatorEnv :=
  { knowledge_base := kb, pil_available := true, render_fault := false,
    backgrounds := [], watermark_exists := true, small_logo_drawn := true,
    output_dir := "output/images",
    wrapFn := fun s _ => [s], widthFn := fun _ _ => 0, heightFn := fun _ _ => 0 }

/-- A fixed random seed: the all-zero draw stream at position 0. -/
def rngZero : RNG := { stream := fun _ => 0, pos := 0 }

/-- A knowledge base shaped like config/knowledge_base.yaml: a mapping whose
conceitos key holds the list of concept entries. -/
def kbTwoConcepts : PyVal :=
  .dict [("conceitos", .list
    [ .dict [("nome", .str "Inconsciente")],
      .dict [("nome", .str "Transferencia")] ])]

/-- A minimal selected concept item: a name and an empty short description. -/
def selMinimal : PyVal :=
  .dict [("nome", .str "Eu"), ("descricao_curta", .str "")]

/-- Another minimal concept item, for the C1 run. -/
def selSombra : PyVal :=
  .dict [("nome", .str "Sombra"), ("descricao_curta", .str "")]

/-- The C1 run: Pillow available, rendering succeeds. -/
def c1Run : CreatorOutcome :=
  afterSelection (mkEnv kbTwoConcepts) [] 0 rngZero "20240315_100000" 0
    ⟨[]⟩ Option.none selSombra

/-- A Content record as the creator was meant to produce it. -/
def contentC7 : Content :=
  { id := "20240101_120000_001", title := .str "Eu", text := .str "descricao",
    caption := "legenda", category := .reflection, content_type := .concept,
    hashtags := ["PortoPsicanalise"],
    image_path := some "output/images/20240101_120000_001.png",
    created_at := 9 }

/-- The record after the posting step of a full cycle with an uninitialized
poster: only posted and post_id changed. -/
def contentC7posted : Content :=
  { contentC7 with
    posted := true
    post_id := some ("simulated" ++ "_failure_" ++ toString 9) }

/-- Modelled from the claim's words: the total content height as the plain
sum of the wrapped title, body and author line heights plus the inter-block
spacings, with no final-line correction. Compared below with the total the
code computes. -/
def claimedTotalHeight (wrapFn : String → Nat → List String)
    (titleArg mainArg authorArg : Option String) : ℚ :=
  let lc := layoutHeights wrapFn titleArg mainArg authorArg
  (lc.title_lines.length : ℚ) * line_height_title
    + (if titleArg.isSome then spacing_after_title else 0)
    + (lc.body_lines.length : ℚ) * line_height_body
    + (if authorArg.isSome && (mainArg.isSome || titleArg.isSome) then
        spacing_before_author else 0)
    + (lc.author_lines.length : ℚ) * line_height_author

/-- A trivial wrap: every string becomes a single line. -/
def wrapOne : String → Nat → List String := fun s _ => [s]

/-- A text-measurement function that reports width zero. -/
def widthZero : String → ℚ → ℚ := fun _ _ => 0

/-- The vertical start of the one-line-title layout used in the C8 witness. -/
def yC8 : ℚ :=
  (image_h - (layoutHeights wrapOne (some "Id") Option.none Option.none).total) / 2

/-- The single text draw of the C8 witness layout. -/
def tdC8 : TextDraw :=
  { line := "Id"
    size := font_title_size
    shadow_x := (image_w - 0) / 2 + 2
    shadow_y := yC8 + 2
    main_x := (image_w - 0) / 2
    main_y := yC8 }

/-! # Theorems for the claims -/

/-! ## C9: importing the supervisor module raises NameError -/

/-- C9: importing src/agents/supervisor.py always raises a NameError, because
the return type hint of collect_engagement_metrics (line 101) references
Dict, which is never imported from typing (line 3 imports only Optional and
Any); the class body stops there, so no SupervisorAgent operation can be
invoked through a normal import of the module. -/
theorem c9_supervisor_import_name_error :
    importSupervisorModule = .error (.nameError "Dict")
      ∧ supervisorImportedNames.contains "Dict" = false := by
  exact ⟨rfl, rfl⟩

/-! ## C3: the supervisor stub -/

/-- C3 counterexample: the claim states that collect_engagement_metrics
returns a non-None metrics result for every post_id; on the state produced
by SupervisorAgent.__init__ (instagram_client is the None placeholder of
supervisor.py line 23) it returns None (line 109). -/
theorem c3_counterexample_metrics_none :
    collect_engagement_metrics
      (supervisorInit (some "test@example.com") (some "data/metrics.db"))
      "simulated_test_post_12345" 7 = Option.none := rfl

/-- C3 amended: verify_post returns True for every post_id and health_check
returns True, but collect_engagement_metrics returns None for every post_id
on any supervisor built by __init__, because the Instagram client is never
initialized; only the unreachable with-client state would yield the
simulated zero metrics. -/
theorem c3_supervisor_reports (st : SupervisorState)
    (em mp : Option String) (post_id : String) (expected : Option String)
    (now : Nat) :
    verify_post st post_id expected = true
      ∧ health_check st = true
      ∧ (supervisorInit em mp).instagram_client = Option.none
      ∧ collect_engagement_metrics (supervisorInit em mp) post_id now = Option.none
      ∧ (∀ cl, collect_engagement_metrics
            { st with instagram_client := some cl } post_id now
            = some { likes := 0, comments := 0, timestamp := now }) := by
  refine ⟨?_, rfl, rfl, rfl, fun cl => rfl⟩
  cases h : st.instagram_client <;> simp [verify_post, h]

/-! ## C5: the poster falls back to a simulated identifier -/

/-- C5: whenever instagrapi is missing or the Instagram client was not
initialized, post_content returns the non-None simulated identifier
"simulated_failure_<epoch>", which carries the simulated marker prefix,
instead of performing a real upload (poster.py lines 104-109). -/
theorem c5_poster_simulated_fallback (st : PosterState) (content : Content)
    (fs : FS) (now : Nat)
    (h : st.instagrapi_available = false ∨ st.instagram_client = Option.none) :
    post_content st content fs now
      = some ("simulated" ++ "_failure_" ++ toString now) := by
  unfold post_content
  rcases h with h | h <;> simp [h]

/-- Witness for C5 at a concrete uninitialized poster. -/
theorem c5_witness :
    post_content { instagrapi_available := false, instagram_client := Option.none }
      posterExampleContent ⟨["output/images/dummy.png"]⟩ 42
      = some ("simulated" ++ "_failure_" ++ toString 42) :=
  c5_poster_simulated_fallback _ _ _ _ (Or.inl rfl)

/-! ## C2: selection from unused concepts and the used-content log -/

/-- C2 (code bug): with a knowledge base holding unused concepts and an empty
used-content log, create_content raises AttributeError instead of selecting
a concept: _get_available_knowledge_base iterates the knowledge-base mapping
itself (creator.py line 542), so each item is a key string and item.get
does not exist on str. No selection and no log write ever happens. -/
theorem c2_filter_raises_attribute_error :
    (create_content (mkEnv kbTwoConcepts) [] 0 rngZero "20240101_120000" 0
        ⟨[]⟩ Option.none Option.none).outcome
      = .error (.attributeError "str" "get")
    ∧ (create_content (mkEnv kbTwoConcepts) [] 0 rngZero "20240101_120000" 0
        ⟨[]⟩ Option.none Option.none).selectedItem = Option.none := by
  exact ⟨rfl, rfl⟩

/-! ## C4: failures converted to None returns -/

/-- C4 counterexample: the claim states that whenever create_content fails it
returns None; with a well-formed knowledge base the call instead terminates
with an uncaught AttributeError (raised while filtering the knowledge base),
which is an escaping exception rather than a None return. -/
theorem c4_counterexample_uncaught_exception :
    (create_content
        (mkEnv (.dict [("conceitos", .list [.dict [("nome", .str "Sonhos")]])]))
        [] 3 rngZero "20240202_000000" 5 ⟨[]⟩ Option.none Option.none).outcome
      = .error (.attributeError "str" "get") := rfl

/-- C4 amended: every handled failure branch converts the error to a None
return: create_content returns None when the knowledge base is missing or
falsy (creator.py lines 203-205) and when it has no truthy conceitos entry;
post_content returns None when the image path is falsy or the file is
missing (poster.py lines 111-113) and when the upload raises (lines
124-126). Unhandled exceptions (see the counterexample) escape instead. -/
theorem c4_handled_failures_return_none :
    (∀ env used counter rng ts now fs cat ctf,
        pyTruthy env.knowledge_base = false →
        (create_content env used counter rng ts now fs cat ctf).outcome
          = .ok Option.none)
  ∧ (∀ env used counter rng ts now fs cat ctf v,
        pyAttrGetD env.knowledge_base "conceitos" .none = .ok v →
        pyTruthy v = false →
        (create_content env used counter rng ts now fs cat ctf).outcome
          = .ok Option.none)
  ∧ (∀ st cl content fs now,
        st.instagrapi_available = true →
        st.instagram_client = some cl →
        (content.image_path = Option.none ∨ content.image_path = some "") →
        post_content st content fs now = Option.none)
  ∧ (∀ st cl content fs now p,
        st.instagrapi_available = true →
        st.instagram_client = some cl →
        content.image_path = some p →
        p.isEmpty = false →
        fs.pathExists p = false →
        post_content st content fs now = Option.none)
  ∧ (∀ st cl content fs now p,
        st.instagrapi_available = true →
        st.instagram_client = some cl →
        content.image_path = some p →
        p.isEmpty = false →
        fs.pathExists p = true →
        cl.upload p content.caption = Option.none →
        post_content st content fs now = Option.none) := by
  refine ⟨?_, ?_, ?_, ?_, ?_⟩
  · intro env used counter rng ts now fs cat ctf h
    unfold create_content
    simp [h, earlyOutcome]
  · intro env used counter rng ts now fs cat ctf v hget hv
    unfold create_content
    by_cases h1 : pyTruthy env.knowledge_base
    · simp [h1, hget, hv, earlyOutcome, createWithConceitos]
    · simp [h1, earlyOutcome]
  · intro st cl content fs now h1 h2 h3
    unfold post_content
    rcases h3 with h3 | h3
    · simp [h1, h2, h3]
    · simp [h1, h2, h3]
      intro h4
      exact absurd h4 (by decide)
  · intro st cl content fs now p h1 h2 h3 h4 h5
    unfold post_content
    simp [h1, h2, h3, h4, h5]
  · intro st cl content fs now p h1 h2 h3 h4 h5 h6
    unfold post_content
    simp [h1, h2, h3, h4, h5, h6]

/-- Witness for C4 amended: each handled failure branch discharged at a
concrete input. -/
theorem c4_witness :
    (create_content (mkEnv .none) [] 0 rngZero "t" 0 ⟨[]⟩
        Option.none Option.none).outcome = .ok Option.none
  ∧ (create_content (mkEnv (.dict [("nada", .int 1)])) [] 0 rngZero "t" 0 ⟨[]⟩
        Option.none Option.none).outcome = .ok Option.none
  ∧ post_content ⟨true, some ⟨fun _ _ => Option.none⟩⟩
      { posterExampleContent with image_path := Option.none } ⟨[]⟩ 9
      = Option.none
  ∧ post_content ⟨true, some ⟨fun _ _ => Option.none⟩⟩
      { posterExampleContent with image_path := some "missing.png" } ⟨[]⟩ 9
      = Option.none
  ∧ post_content ⟨true, some ⟨fun _ _ => Option.none⟩⟩
      { posterExampleContent with image_path := some "here.png" }
      ⟨["here.png"]⟩ 9 = Option.none := by
  refine ⟨?_, ?_, ?_, ?_, ?_⟩
  · exact c4_handled_failures_return_none.1 _ _ _ _ _ _ _ _ _ rfl
  · exact c4_handled_failures_return_none.2.1 _ _ _ _ _ _ _ _ _ _ rfl rfl
  · exact c4_handled_failures_return_none.2.2.1 _ _ _ _ _ rfl rfl (Or.inl rfl)
  · exact c4_handled_failures_return_none.2.2.2.1 _ _ _ _ _ _ rfl rfl rfl rfl rfl
  · exact c4_handled_failures_return_none.2.2.2.2 _ _ _ _ _ _ rfl rfl rfl rfl rfl rfl

/-! ## C10: the .stem access on a plain string -/

/-- The output path of line 531 is never the empty string. -/
theorem outPath_isEmpty_false (env : CreatorEnv) (cid : String) :
    (outPath env cid).isEmpty = false := by
  rw [Bool.eq_false_iff]
  intro h
  rw [String.isEmpty_iff] at h
  have hl := congrArg String.length h
  unfold outPath at hl
  simp only [String.length_append] at hl
  have h1 : "/".length = 1 := rfl
  have h2 : ".png".length = 4 := rfl
  have h3 : "".length = 0 := rfl
  omega

/-- A returned image path is always the output path of line 531. -/
theorem generate_image_path_shape (env : CreatorEnv) (rng : RNG) (fs : FS)
    (cid : String) (el : ImgElements) (category : ContentCategory) (p : String)
    (h : (generate_image_with_pillow env rng fs cid el category).path = some p) :
    p = outPath env cid := by
  unfold generate_image_with_pillow at h
  cases hp : env.pil_available with
  | false => rw [hp] at h; simp at h
  | true =>
    rw [hp] at h
    cases hb : buildSpec env category (pickBg env rng).1 el with
    | error e => rw [hb] at h; simp at h
    | ok spec =>
      rw [hb] at h
      simp at h
      exact h.symm

/-- finishContent (creator.py lines 286-307) never produces a Content. -/
theorem finishContent_never_some (nc : Content) (c : Content) :
    finishContent nc ≠ .ok (some c) := by
  unfold finishContent
  cases h : nc.image_path with
  | none => simp
  | some p => by_cases hp : p.isEmpty <;> simp [hp]

/-- From the selection on, create_content never returns a Content. -/
theorem afterSelection_never_some (env : CreatorEnv) (used : List String)
    (counter : Nat) (rng : RNG) (ts : String) (now : Nat) (fs : FS)
    (cat : Option ContentCategory) (sel : PyVal) (c : Content) :
    (afterSelection env used counter rng ts now fs cat sel).outcome
      ≠ .ok (some c) := by
  unfold afterSelection
  cases h : buildTextParts sel cat rng with
  | error e => simp
  | ok tpr =>
    by_cases hp : env.pil_available <;>
      simpa [hp] using finishContent_never_some _ c

/-- The empty-available guard and selection never return a Content. -/
theorem createFromAvailable_never_some (env : CreatorEnv) (used : List String)
    (counter : Nat) (rng : RNG) (ts : String) (now : Nat) (fs : FS)
    (cat : Option ContentCategory) (available : List PyVal) (c : Content) :
    (createFromAvailable env used counter rng ts now fs cat available).outcome
      ≠ .ok (some c) := by
  unfold createFromAvailable
  cases h : available.isEmpty with
  | true => simp [earlyOutcome]
  | false => exact afterSelection_never_some _ _ _ _ _ _ _ _ _ c

/-- The conceitos stage never returns a Content. -/
theorem createWithConceitos_never_some (env : CreatorEnv) (used : List String)
    (counter : Nat) (rng : RNG) (ts : String) (now : Nat) (fs : FS)
    (cat : Option ContentCategory) (conceitos : PyVal) (c : Content) :
    (createWithConceitos env used counter rng ts now fs cat conceitos).outcome
      ≠ .ok (some c) := by
  unfold createWithConceitos
  cases h : pyTruthy conceitos with
  | false => simp [earlyOutcome]
  | true =>
    simp only [Bool.not_true, Bool.false_eq_true, if_false]
    cases h4 : get_available_knowledge_base env.knowledge_base used with
    | error e => simp [earlyOutcome]
    | ok available => exact createFromAvailable_never_some _ _ _ _ _ _ _ _ _ c

/-- C10: whenever the image-generation step succeeds (an image path was
written into the run), the subsequent caption-filename computation of
creator.py line 292 accesses .stem on image_path, which at that point is a
plain str — AttributeError; consequently create_content never returns a
Content object at all. -/
theorem c10_stem_attribute_error :
    (∀ env used counter rng ts now fs cat sel,
        ((afterSelection env used counter rng ts now fs cat sel).imagePathWritten).isSome
            = true →
        (afterSelection env used counter rng ts now fs cat sel).outcome
          = .error (.attributeError "str" "stem"))
  ∧ (∀ env used counter rng ts now fs cat ctf c,
        (create_content env used counter rng ts now fs cat ctf).outcome
          ≠ .ok (some c)) := by
  constructor
  · intro env used counter rng ts now fs cat sel hw
    unfold afterSelection at hw ⊢
    cases h : buildTextParts sel cat rng with
    | error e => simp [h] at hw
    | ok tpr =>
      by_cases hp : env.pil_available
      · simp only [h, hp, if_pos] at hw ⊢
        cases hg : (generate_image_with_pillow env tpr.2 fs
            (ts ++ "_" ++ pad3 (counter + 1)) (elementsOf tpr.1)
            tpr.1.category).path with
        | none => rw [hg] at hw; simp at hw
        | some p =>
          have hshape := generate_image_path_shape _ _ _ _ _ _ _ hg
          subst hshape
          unfold finishContent mkContent
          simp [outPath_isEmpty_false]
      · simp [h, hp] at hw
  · intro env used counter rng ts now fs cat ctf c
    unfold create_content
    cases h1 : pyTruthy env.knowledge_base with
    | false => simp [earlyOutcome]
    | true =>
      simp only [Bool.not_true, Bool.false_eq_true, if_false]
      cases h2 : pyAttrGetD env.knowledge_base "conceitos" .none with
      | error e => simp [earlyOutcome]
      | ok v => exact createWithConceitos_never_some _ _ _ _ _ _ _ _ _ c

/-- Witness for C10: a concrete run whose image generation succeeds and whose
outcome is the AttributeError of line 292. -/
theorem c10_witness :
    (afterSelection (mkEnv kbTwoConcepts) [] 0 rngZero "20240101_120000" 0
        ⟨[]⟩ Option.none selMinimal).outcome
      = .error (.attributeError "str" "stem") :=
  c10_stem_attribute_error.1 _ _ _ _ _ _ _ _ _ (by rfl)

/-! ## C1: image_path set implies the image file was written -/

/-- C1 (code bug): on a run whose image generation succeeds, the image file
is written at the computed output path, but create_content then raises
AttributeError at the caption-filename computation of line 292 instead of
performing the claimed existence check and returning the Content; no
invocation can ever return a Content object whose image_path is set (and
the caption file which the check of line 295 looks for is never written by
_generate_image_with_pillow, contrary to the comment of lines 290-291). -/
theorem c1_image_written_but_create_raises :
    c1Run.imagePathWritten = some "output/images/20240315_100000_001.png"
      ∧ c1Run.fsFinal.pathExists "output/images/20240315_100000_001.png" = true
      ∧ c1Run.outcome = .error (.attributeError "str" "stem") := by
  exact ⟨rfl, rfl, rfl⟩

/-! ## C7: the Content record is mutated only by the posting step -/

/-- The supervision step returns the record unchanged. -/
theorem mainSuperviseStep_id (c : Content) (sup : SupervisorState) (now : Nat) :
    mainSuperviseStep (some c) sup now = some c := by
  unfold mainSuperviseStep
  cases h : c.post_id <;> simp [h]

/-- The posting step either leaves the record untouched or applies the single
update of main.py lines 138-139. -/
theorem mainPostStep_cases (c : Content) (poster : PosterState) (fs : FS)
    (now : Nat) :
    mainPostStep (some c) poster fs now = (some c, 0)
  ∨ ∃ pid, mainPostStep (some c) poster fs now
      = (some { c with posted := true, post_id := some pid }, 1) := by
  unfold mainPostStep
  cases h1 : c.image_path.elim false (fun p => !p.isEmpty) with
  | false => left; simp [h1]
  | true =>
    simp only [h1, if_pos]
    cases h2 : post_content poster c fs now with
    | none => left; rfl
    | some pid => right; exact ⟨pid, rfl⟩

/-- C7 counterexample: the claim says the record is mutated exactly once by
the posting step; in mode create (a valid --mode choice) the posting step
never runs and the record is mutated zero times. -/
theorem c7_counterexample_zero_mutations :
    (mainFlow .create (some contentC7) ⟨false, Option.none⟩
        (supervisorInit Option.none Option.none) ⟨[]⟩ 9).2 = 0 := rfl

/-- C7 amended: the record is mutated at most once, and only by the posting
step when post_content returns an id; the update sets only the posted flag
and the post_id field, every other field (id, title, text, caption,
category, content_type, hashtags, image_path, created_at) is unchanged, and
neither the creation nor the supervision step updates the record. -/
theorem c7_record_mutated_at_most_once (mode : RunMode)
    (created : Option Content) (poster : PosterState) (sup : SupervisorState)
    (fs : FS) (now : Nat) :
    (mainFlow mode created poster sup fs now).2 ≤ 1
  ∧ (∀ c, runsCreator mode = true → created = some c →
        ((mainFlow mode created poster sup fs now).1).isSome = true)
  ∧ (∀ c c', runsCreator mode = true → created = some c →
        (mainFlow mode created poster sup fs now).1 = some c' →
        c'.id = c.id ∧ c'.title = c.title ∧ c'.text = c.text
          ∧ c'.caption = c.caption ∧ c'.category = c.category
          ∧ c'.content_type = c.content_type ∧ c'.hashtags = c.hashtags
          ∧ c'.image_path = c.image_path ∧ c'.created_at = c.created_at
          ∧ ((mainFlow mode created poster sup fs now).2 = 0 → c' = c)
          ∧ ((mainFlow mode created poster sup fs now).2 = 1 →
              c'.posted = true ∧ (c'.post_id).isSome = true)) := by
  cases mode with
  | post =>
    refine ⟨?_, ?_, ?_⟩
    · simp [mainFlow, mainPostStep, runsCreator, runsPoster]
    · intro c hrc; simp [runsCreator] at hrc
    · intro c c' hrc; simp [runsCreator] at hrc
  | supervise =>
    refine ⟨?_, ?_, ?_⟩
    · simp [mainFlow, runsCreator, runsPoster, mainSuperviseStep]
    · intro c hrc; simp [runsCreator] at hrc
    · intro c c' hrc; simp [runsCreator] at hrc
  | create =>
    cases created with
    | none =>
      refine ⟨by simp [mainFlow, runsCreator, runsPoster], ?_, ?_⟩
      · intro c _ hc; cases hc
      · intro c c' _ hc; cases hc
    | some c0 =>
      refine ⟨by simp [mainFlow, runsCreator, runsPoster], ?_, ?_⟩
      · intro c _ hc
        simp [mainFlow, runsCreator, runsPoster]
      · intro c c' _ hc hfin
        cases hc
        simp only [mainFlow, runsCreator, runsPoster, Bool.false_eq_true,
          if_false, if_true] at hfin
        simp at hfin
        cases hfin
        exact ⟨rfl, rfl, rfl, rfl, rfl, rfl, rfl, rfl, rfl,
          fun _ => rfl, by simp [mainFlow, runsCreator, runsPoster]⟩
  | test_creator =>
    cases created with
    | none =>
      refine ⟨by simp [mainFlow, runsCreator, runsPoster], ?_, ?_⟩
      · intro c _ hc; cases hc
      · intro c c' _ hc; cases hc
    | some c0 =>
      refine ⟨by simp [mainFlow, runsCreator, runsPoster], ?_, ?_⟩
      · intro c _ hc
        simp [mainFlow, runsCreator, runsPoster]
      · intro c c' _ hc hfin
        cases hc
        simp only [mainFlow, runsCreator, runsPoster, Bool.false_eq_true,
          if_false, if_true] at hfin
        simp at hfin
        cases hfin
        exact ⟨rfl, rfl, rfl, rfl, rfl, rfl, rfl, rfl, rfl,
          fun _ => rfl, by simp [mainFlow, runsCreator, runsPoster]⟩
  | full_cycle =>
    cases created with
    | none =>
      refine ⟨by simp [mainFlow, runsCreator, runsPoster, mainPostStep,
          mainSuperviseStep], ?_, ?_⟩
      · intro c _ hc; cases hc
      · intro c c' _ hc; cases hc
    | some c0 =>
      rcases mainPostStep_cases c0 poster fs now with hps | ⟨pid, hps⟩
      · refine ⟨?_, ?_, ?_⟩
        · simp [mainFlow, runsCreator, runsPoster, hps]
        · intro c _ hc
          cases hc
          simp [mainFlow, runsCreator, runsPoster, hps, mainSuperviseStep_id]
        · intro c c' _ hc hfin
          cases hc
          simp only [mainFlow, runsCreator, runsPoster, if_true] at hfin ⊢
          rw [hps] at hfin ⊢
          simp only [mainSuperviseStep_id] at hfin
          simp at hfin
          cases hfin
          exact ⟨rfl, rfl, rfl, rfl, rfl, rfl, rfl, rfl, rfl,
            fun _ => rfl, by simp⟩
      · refine ⟨?_, ?_, ?_⟩
        · simp [mainFlow, runsCreator, runsPoster, hps]
        · intro c _ hc
          cases hc
          simp [mainFlow, runsCreator, runsPoster, hps, mainSuperviseStep_id]
        · intro c c' _ hc hfin
          cases hc
          simp only [mainFlow, runsCreator, runsPoster, if_true] at hfin ⊢
          rw [hps] at hfin ⊢
          simp only [mainSuperviseStep_id] at hfin
          simp at hfin
          cases hfin
          exact ⟨rfl, rfl, rfl, rfl, rfl, rfl, rfl, rfl, rfl,
            by simp, fun _ => ⟨rfl, rfl⟩⟩

/-- Witness for C7 amended: a concrete full cycle whose posting succeeds with
the simulated identifier; all frame fields are preserved. -/
theorem c7_witness :
    contentC7posted.id = contentC7.id
  ∧ contentC7posted.title = contentC7.title
  ∧ contentC7posted.text = contentC7.text
  ∧ contentC7posted.caption = contentC7.caption
  ∧ contentC7posted.category = contentC7.category
  ∧ contentC7posted.content_type = contentC7.content_type
  ∧ contentC7posted.hashtags = contentC7.hashtags
  ∧ contentC7posted.image_path = contentC7.image_path
  ∧ contentC7posted.created_at = contentC7.created_at
  ∧ ((mainFlow .full_cycle (some contentC7) ⟨false, Option.none⟩
        (supervisorInit Option.none Option.none) ⟨[]⟩ 9).2 = 0 →
      contentC7posted = contentC7)
  ∧ ((mainFlow .full_cycle (some contentC7) ⟨false, Option.none⟩
        (supervisorInit Option.none Option.none) ⟨[]⟩ 9).2 = 1 →
      contentC7posted.posted = true ∧ (contentC7posted.post_id).isSome = true) :=
  (c7_record_mutated_at_most_once .full_cycle (some contentC7)
      ⟨false, Option.none⟩ (supervisorInit Option.none Option.none)
      ⟨[]⟩ 9).2.2 contentC7 contentC7posted rfl rfl (by rfl)

/-! ## C8: vertical-centering sum and shadow offset -/

/-- The title lines of the layout are the wrap of the title text. -/
theorem layoutHeights_title_lines (wrapFn : String → Nat → List String)
    (mainArg authorArg : Option String) (s : String) :
    (layoutHeights wrapFn (some s) mainArg authorArg).title_lines
      = wrapFn s wrapWidthTitle := rfl

/-- Without a body text there are no body lines in the layout. -/
theorem layoutHeights_body_lines_none (wrapFn : String → Nat → List String)
    (titleArg authorArg : Option String) :
    (layoutHeights wrapFn titleArg Option.none authorArg).body_lines = [] := by
  cases titleArg <;> cases authorArg <;> rfl

/-- Without an author text there are no author lines in the layout. -/
theorem layoutHeights_author_lines_none (wrapFn : String → Nat → List String)
    (titleArg mainArg : Option String) :
    (layoutHeights wrapFn titleArg mainArg Option.none).author_lines = [] := by
  cases titleArg <;> cases mainArg <;> rfl

/-- The first body draw of a nonempty body block sits at the start height. -/
theorem drawBodyLines_head_y (widthFn : String → ℚ → ℚ) (l : String)
    (ls : List String) (y : ℚ) :
    ((drawBodyLines widthFn (l :: ls) y).1.head?).map TextDraw.main_y
      = some y := by
  cases ls <;> rfl

/-- The first author draw of a nonempty author block sits at the start
height. -/
theorem drawAuthorLines_head_y (widthFn : String → ℚ → ℚ) (l : String)
    (ls : List String) (y : ℚ) :
    ((drawAuthorLines widthFn (l :: ls) y).1.head?).map TextDraw.main_y
      = some y := by
  cases ls <;> rfl

/-- C8 counterexample: for a title-only image with a one-line title, the code
places the first text line at y = (1080 - 105) / 2 = 975/2, while the
claimed plain sum of line heights and spacings gives (1080 - 119) / 2 =
961/2: the code subtracts the final-block leading correction
(line_height_title - font_title_size = 14) at creator.py line 476, which
the claim omits. -/
theorem c8_counterexample :
    ((contentTextDraws widthZero
        (layoutHeights wrapOne (some "Id") Option.none Option.none)
        (some "Id") Option.none Option.none).head?.map TextDraw.main_y)
      = some (975 / 2)
  ∧ (image_h - claimedTotalHeight wrapOne (some "Id") Option.none Option.none) / 2
      = 961 / 2
  ∧ ((975 : ℚ) / 2) ≠ 961 / 2 := by
  refine ⟨?_, ?_, by norm_num⟩
  · simp only [contentTextDraws, layoutHeights, wrapOne, widthZero, bodyWalk,
      drawTitleLines, drawBodyLines, drawAuthorLines]
    norm_num [image_h, image_w, line_height_title, spacing_after_title,
      font_title_size, line_height_body, font_body_size, line_height_author,
      font_author_size, spacing_before_author]
  · simp only [claimedTotalHeight, layoutHeights, wrapOne, bodyWalk]
    norm_num [image_h, line_height_title, spacing_after_title,
      font_title_size, line_height_body, font_body_size, line_height_author,
      font_author_size, spacing_before_author]

/-- Every title draw carries its shadow at offset (2, 2). -/
theorem drawTitleLines_shadow (widthFn : String → ℚ → ℚ)
    (lines : List String) (y : ℚ) (td : TextDraw)
    (h : td ∈ (drawTitleLines widthFn lines y).1) :
    td.shadow_x = td.main_x + 2 ∧ td.shadow_y = td.main_y + 2 := by
  induction lines generalizing y with
  | nil => simp [drawTitleLines] at h
  | cons l rest ih =>
    simp only [drawTitleLines, List.mem_cons] at h
    rcases h with h | h
    · subst h; exact ⟨rfl, rfl⟩
    · exact ih _ h

/-- Every body draw carries its shadow at offset (2, 2). -/
theorem drawBodyLines_shadow (widthFn : String → ℚ → ℚ)
    (lines : List String) (y : ℚ) (td : TextDraw)
    (h : td ∈ (drawBodyLines widthFn lines y).1) :
    td.shadow_x = td.main_x + 2 ∧ td.shadow_y = td.main_y + 2 := by
  induction lines generalizing y with
  | nil => simp [drawBodyLines] at h
  | cons l rest ih =>
    cases rest with
    | nil =>
      simp only [drawBodyLines, List.mem_singleton] at h
      subst h; exact ⟨rfl, rfl⟩
    | cons l2 rest2 =>
      simp only [drawBodyLines, List.mem_cons] at h
      rcases h with h | h
      · subst h; exact ⟨rfl, rfl⟩
      · exact ih _ h

/-- Every author draw carries its shadow at offset (2, 2). -/
theorem drawAuthorLines_shadow (widthFn : String → ℚ → ℚ)
    (lines : List String) (y : ℚ) (td : TextDraw)
    (h : td ∈ (drawAuthorLines widthFn lines y).1) :
    td.shadow_x = td.main_x + 2 ∧ td.shadow_y = td.main_y + 2 := by
  induction lines generalizing y with
  | nil => simp [drawAuthorLines] at h
  | cons l rest ih =>
    cases rest with
    | nil =>
      simp only [drawAuthorLines, List.mem_singleton] at h
      subst h; exact ⟨rfl, rfl⟩
    | cons l2 rest2 =>
      simp only [drawAuthorLines, List.mem_cons] at h
      rcases h with h | h
      · subst h; exact ⟨rfl, rfl⟩
      · exact ih _ h

/-- C8 amended: whichever block leads the image — the title, the body of a
title-less layout such as every QUOTE image (creator.py line 267 sets
title_text to None for quotes), or the author line alone — its first drawn
line starts at y = (image height - total_content_height) / 2, where
total_content_height is the quantity the code computes (the plain sum of
wrapped line heights and inter-block spacings minus the final-block leading
correction of creator.py lines 476-478, see the counterexample); and every
drawn line has its shadow at exactly (2, 2) pixels from the line position.
In each case the leading block is required to have a nonempty wrap, since a
truthy whitespace-only text wraps to no lines while still adding its
spacing. -/
theorem c8_first_line_centering_and_shadow :
    (∀ (wrapFn : String → Nat → List String) (widthFn : String → ℚ → ℚ)
        (mainArg authorArg : Option String) (s l : String) (ls : List String),
        wrapFn s wrapWidthTitle = l :: ls →
        ((contentTextDraws widthFn
            (layoutHeights wrapFn (some s) mainArg authorArg)
            (some s) mainArg authorArg).head?.map TextDraw.main_y)
          = some ((image_h
              - (layoutHeights wrapFn (some s) mainArg authorArg).total) / 2))
  ∧ (∀ (wrapFn : String → Nat → List String) (widthFn : String → ℚ → ℚ)
        (mainArg authorArg : Option String) (l : String) (ls : List String),
        (layoutHeights wrapFn Option.none mainArg authorArg).body_lines
          = l :: ls →
        ((contentTextDraws widthFn
            (layoutHeights wrapFn Option.none mainArg authorArg)
            Option.none mainArg authorArg).head?.map TextDraw.main_y)
          = some ((image_h
              - (layoutHeights wrapFn Option.none mainArg authorArg).total) / 2))
  ∧ (∀ (wrapFn : String → Nat → List String) (widthFn : String → ℚ → ℚ)
        (authorArg : Option String) (l : String) (ls : List String),
        (layoutHeights wrapFn Option.none Option.none authorArg).author_lines
          = l :: ls →
        ((contentTextDraws widthFn
            (layoutHeights wrapFn Option.none Option.none authorArg)
            Option.none Option.none authorArg).head?.map TextDraw.main_y)
          = some ((image_h
              - (layoutHeights wrapFn Option.none Option.none authorArg).total) / 2))
  ∧ (∀ (widthFn : String → ℚ → ℚ) (lc : LayoutCalc)
        (titleArg mainArg authorArg : Option String) (td : TextDraw),
        td ∈ contentTextDraws widthFn lc titleArg mainArg authorArg →
        td.shadow_x = td.main_x + 2 ∧ td.shadow_y = td.main_y + 2) := by
  refine ⟨?_, ?_, ?_, ?_⟩
  · intro wrapFn widthFn mainArg authorArg s l ls hwrap
    have hT := layoutHeights_title_lines wrapFn mainArg authorArg s
    unfold contentTextDraws
    rw [hT, hwrap]
    simp [drawTitleLines]
  · intro wrapFn widthFn mainArg authorArg l ls hbody
    cases hm : mainArg with
    | none =>
      rw [hm, layoutHeights_body_lines_none] at hbody
      simp at hbody
    | some s =>
      rw [hm] at hbody
      unfold contentTextDraws
      rw [hbody]
      cases ls <;> simp [drawBodyLines]
  · intro wrapFn widthFn authorArg l ls hauthor
    cases ha : authorArg with
    | none =>
      rw [ha, layoutHeights_author_lines_none] at hauthor
      simp at hauthor
    | some s =>
      rw [ha] at hauthor
      unfold contentTextDraws
      rw [hauthor]
      cases ls <;> simp [drawAuthorLines, drawBodyLines]
  · intro widthFn lc titleArg mainArg authorArg td h
    unfold contentTextDraws at h
    simp only [List.mem_append] at h
    rcases h with (h | h) | h
    · by_cases ht : titleArg.isSome
      · simp only [ht, if_pos] at h
        exact drawTitleLines_shadow _ _ _ _ h
      · simp [ht] at h
    · by_cases hm : mainArg.isSome
      · simp only [hm, if_pos] at h
        exact drawBodyLines_shadow _ _ _ _ h
      · simp [hm] at h
    · by_cases ha : authorArg.isSome
      · simp only [ha, if_pos] at h
        exact drawAuthorLines_shadow _ _ _ _ h
      · simp [ha] at h

/-- Witness for C8 amended: concrete title-led, body-led (the QUOTE shape)
and author-led layouts, with every conjunct discharged. -/
theorem c8_witness :
    ((contentTextDraws widthZero
        (layoutHeights wrapOne (some "Id") Option.none Option.none)
        (some "Id") Option.none Option.none).head?.map TextDraw.main_y)
      = some yC8
  ∧ ((contentTextDraws widthZero
        (layoutHeights wrapOne Option.none (some "corpo") Option.none)
        Option.none (some "corpo") Option.none).head?.map TextDraw.main_y)
      = some ((image_h
          - (layoutHeights wrapOne Option.none (some "corpo") Option.none).total) / 2)
  ∧ ((contentTextDraws widthZero
        (layoutHeights wrapOne Option.none Option.none (some "Freud"))
        Option.none Option.none (some "Freud")).head?.map TextDraw.main_y)
      = some ((image_h
          - (layoutHeights wrapOne Option.none Option.none (some "Freud")).total) / 2)
  ∧ tdC8.shadow_y = tdC8.main_y + 2 := by
  refine ⟨?_, ?_, ?_, ?_⟩
  · exact c8_first_line_centering_and_shadow.1 wrapOne widthZero
      Option.none Option.none "Id" "Id" [] rfl
  · exact c8_first_line_centering_and_shadow.2.1 wrapOne widthZero
      (some "corpo") Option.none "corpo" [] rfl
  · exact c8_first_line_centering_and_shadow.2.2.1 wrapOne widthZero
      (some "Freud") "— Freud" [] rfl
  · refine (c8_first_line_centering_and_shadow.2.2.2 widthZero
      (layoutHeights wrapOne (some "Id") Option.none Option.none)
      (some "Id") Option.none Option.none tdC8 ?_).2
    simp [contentTextDraws, drawTitleLines, layoutHeights_title_lines,
      wrapOne, widthZero, shadow_offset, tdC8, yC8]

/-! ## C6: fixed knowledge base and seed determine selection and image -/

/-- The content id only names the output file (creator.py line 531); the
rendered image spec does not depend on it. -/
theorem generate_image_spec_cid_free (env : CreatorEnv) (rng : RNG) (fs : FS)
    (el : ImgElements) (category : ContentCategory) (cid cid' : String) :
    (generate_image_with_pillow env rng fs cid el category).spec
      = (generate_image_with_pillow env rng fs cid' el category).spec := by
  unfold generate_image_with_pillow
  cases hp : env.pil_available with
  | false => rfl
  | true =>
    cases hb : buildSpec env category (pickBg env rng).1 el <;> rfl

/-- Past the selection, the wall-clock time reaches only the content id, the
Content timestamps and the output file name, never the selected item or the
image spec. -/
theorem afterSelection_time_free (env : CreatorEnv) (used : List String)
    (counter : Nat) (rng : RNG) (fs : FS) (cat : Option ContentCategory)
    (sel : PyVal) (ts : String) (now : Nat) (ts2 : String) (now2 : Nat) :
    (afterSelection env used counter rng ts now fs cat sel).selectedItem
      = (afterSelection env used counter rng ts2 now2 fs cat sel).selectedItem
  ∧ (afterSelection env used counter rng ts now fs cat sel).imageSpec
      = (afterSelection env used counter rng ts2 now2 fs cat sel).imageSpec := by
  unfold afterSelection
  cases h : buildTextParts sel cat rng with
  | error e => exact ⟨rfl, rfl⟩
  | ok tpr =>
    cases hp : env.pil_available with
    | false => exact ⟨rfl, rfl⟩
    | true =>
      exact ⟨rfl, generate_image_spec_cid_free env tpr.2 fs (elementsOf tpr.1)
        tpr.1.category (ts ++ "_" ++ pad3 (counter + 1))
        (ts2 ++ "_" ++ pad3 (counter + 1))⟩

/-- The selection stage observations are time-free. -/
theorem createFromAvailable_time_free (env : CreatorEnv) (used : List String)
    (counter : Nat) (rng : RNG) (fs : FS) (cat : Option ContentCategory)
    (available : List PyVal) (ts : String) (now : Nat) (ts2 : String)
    (now2 : Nat) :
    (createFromAvailable env used counter rng ts now fs cat available).selectedItem
      = (createFromAvailable env used counter rng ts2 now2 fs cat available).selectedItem
  ∧ (createFromAvailable env used counter rng ts now fs cat available).imageSpec
      = (createFromAvailable env used counter rng ts2 now2 fs cat available).imageSpec := by
  unfold createFromAvailable
  cases h : available.isEmpty with
  | true => exact ⟨rfl, rfl⟩
  | false =>
    exact afterSelection_time_free env used counter
      (randBelow rng available.length).2 fs cat
      (available.getD (randBelow rng available.length).1 .none) ts now ts2 now2

/-- The conceitos stage observations are time-free. -/
theorem createWithConceitos_time_free (env : CreatorEnv) (used : List String)
    (counter : Nat) (rng : RNG) (fs : FS) (cat : Option ContentCategory)
    (conceitos : PyVal) (ts : String) (now : Nat) (ts2 : String) (now2 : Nat) :
    (createWithConceitos env used counter rng ts now fs cat conceitos).selectedItem
      = (createWithConceitos env used counter rng ts2 now2 fs cat conceitos).selectedItem
  ∧ (createWithConceitos env used counter rng ts now fs cat conceitos).imageSpec
      = (createWithConceitos env used counter rng ts2 now2 fs cat conceitos).imageSpec := by
  unfold createWithConceitos
  cases h : pyTruthy conceitos with
  | false => exact ⟨rfl, rfl⟩
  | true =>
    cases h4 : get_available_knowledge_base env.knowledge_base used with
    | error e => exact ⟨rfl, rfl⟩
    | ok available =>
      exact createFromAvailable_time_free env used counter rng fs cat
        available ts now ts2 now2

/-- C6: two create_content runs over the same knowledge base, the same
used-content log, the same counter, the same random seed and the same file
system — differing only in wall-clock time — select the same concept and
render the same image spec (hence the same image bytes). -/
theorem c6_fixed_seed_determinism (env : CreatorEnv) (used : List String)
    (counter : Nat) (rng : RNG) (fs : FS) (cat : Option ContentCategory)
    (ctf : Option ContentType) (ts : String) (now : Nat) (ts2 : String)
    (now2 : Nat) :
    (create_content env used counter rng ts now fs cat ctf).selectedItem
      = (create_content env used counter rng ts2 now2 fs cat ctf).selectedItem
  ∧ (create_content env used counter rng ts now fs cat ctf).imageSpec
      = (create_content env used counter rng ts2 now2 fs cat ctf).imageSpec := by
  unfold create_content
  cases h1 : pyTruthy env.knowledge_base with
  | false => exact ⟨rfl, rfl⟩
  | true =>
    cases h2 : pyAttrGetD env.knowledge_base "conceitos" .none with
    | error e => exact ⟨rfl, rfl⟩
    | ok v =>
      exact createWithConceitos_time_free env used counter rng fs cat v
        ts now ts2 now2

end PortoPsicanalise
